import Mathlib

/-
Shallow embedding of src/watch-faces/sensor/voltage_face.c ("handwash
detector" face): signal conditioning, zero-crossing cycle detection,
rolling-window cycle counting, trigger with beep/LED, LED-hold countdown,
and daily counter with calendar rollover.

Conventions:
  * C int32_t arithmetic on the filter values is modelled with unbounded
    Int (the values involved are far from the 32-bit range).
  * uint16_t / uint8_t counters that the code can overflow are modelled
    with Nat reduced explicitly modulo 2^16 / 2^8 at each update.
  * `>> k` on a possibly-negative int32 (gcc arithmetic shift) is
    Int.fdiv by 2^k.
  * Hardware calls (buzzer, LED, display) are recorded as an effect list;
    their semantics on enablement flags is modelled from the spec, since
    watch.h is not part of the sources.
  * `window_hits` is a ghost history variable, not present in the C
    struct: it records the wall-clock times of the hits accumulated in
    the current window, updated exactly where `cycle_count` is updated,
    so that the window invariant can be stated.
-/

namespace VoltageFace

/-- Tuning constants from the top of voltage_face.c. -/
def TICK_HZ : Nat := 16

def MIN_CYCLE_TICKS : Nat := 3

def MAX_CYCLE_TICKS : Nat := 9

def REQUIRED_CYCLES : Nat := 6

def WINDOW_SECONDS : Int := 4

def AMP_THRESHOLD : Int := 1400

def LED_ON_TICKS : Nat := 8

def SHOW_COUNT_TICKS : Nat := TICK_HZ * 3

def UINT16_MOD : Nat := 65536

def UINT8_MOD : Nat := 256

/-- watch_date_time_t unit fields used by the face. -/
structure DateTime where
  hour : Nat
  minute : Nat
  second : Nat
  day : Nat
  month : Nat
  year : Nat
deriving Repr, DecidableEq

def zeroDateTime : DateTime := ⟨0, 0, 0, 0, 0, 0⟩

/-- One raw accelerometer reading (lis2dw_reading_t). -/
structure Reading where
  x : Int
  y : Int
  z : Int
deriving Repr, DecidableEq

/-- wash_ctx_t. `window_hits` is a ghost history variable (see header
comment); every other field embeds a C struct field. -/
structure WashCtx where
  baseline : Int
  hp_filt : Int
  last_hp_filt : Int
  tick_counter : Nat
  last_cross_tick : Nat
  cycle_count : Nat
  first_cycle_time : DateTime
  led_ticks : Nat
  daily_count : Nat
  day : Nat
  month : Nat
  year : Nat
  show_count_ticks : Nat
  window_hits : List DateTime
deriving Repr, DecidableEq

/-- Hardware calls the face makes, in program order. Display writes are
collapsed to a single `draw` marker; accelerometer/tick-rate
configuration requests are not tracked (no claim concerns them). -/
inductive Effect where
  | enableBuzzer
  | playNote
  | enableLeds
  | setLedGreen
  | setLedOff
  | disableLeds
  | disableTapDetection
  | draw
deriving Repr, DecidableEq

/-- static void beep(void): watch_enable_buzzer, watch_buzzer_play_note. -/
def beep_effects : List Effect := [Effect.enableBuzzer, Effect.playNote]

/-- static void led_on(void): watch_enable_leds, watch_set_led_green. -/
def led_on_effects : List Effect := [Effect.enableLeds, Effect.setLedGreen]

/-- static void led_off(void): watch_set_led_off, watch_disable_leds. -/
def led_off_effects : List Effect := [Effect.setLedOff, Effect.disableLeds]

/-- static void reset_cycles(wash_ctx_t *ctx). -/
def reset_cycles (c : WashCtx) : WashCtx :=
  { c with cycle_count := 0, first_cycle_time := zeroDateTime,
           last_cross_tick := 0, window_hits := [] }

/-- static int32_t to_seconds(watch_date_time_t t): seconds since
midnight from the hour/minute/second fields (no date correction). -/
def to_seconds (t : DateTime) : Int :=
  (t.hour : Int) * 3600 + (t.minute : Int) * 60 + (t.second : Int)

/-- static bool read_hp_filtered(...), for the case where a new sample is
available: update baseline (low-pass /16) and the smoothed signed
high-pass (/4); returns the updated context and the absolute amplitude. -/
def read_hp_filtered (c : WashCtx) (r : Reading) : WashCtx × Int :=
  let mag : Int := |r.x| + |r.y| + |r.z|
  let b0 : Int := if c.baseline = 0 then mag else c.baseline
  let baseline1 : Int := b0 + Int.fdiv (mag - b0) 16
  let hp : Int := mag - baseline1
  let hp_filt1 : Int := c.hp_filt + Int.fdiv (hp - c.hp_filt) 4
  let a : Int := if hp_filt1 < 0 then -hp_filt1 else hp_filt1
  ({ c with baseline := baseline1, hp_filt := hp_filt1 }, a)

/-- dt_ticks computation at a detected crossing:
`(ctx->last_cross_tick == 0) ? 0 : (uint16_t)(now_tick - ctx->last_cross_tick)`. -/
def dt_ticks_of (c : WashCtx) : Nat :=
  if c.last_cross_tick = 0 then 0
  else (c.tick_counter + UINT16_MOD - c.last_cross_tick) % UINT16_MOD

/-- Result of processing one consumed sample inside the EVENT_TICK drain
loop. `counted` marks that the in-band branch recorded a cycle;
`triggered` marks that REQUIRED_CYCLES was reached. -/
structure SampleResult where
  ctx : WashCtx
  effects : List Effect
  counted : Bool
  triggered : Bool
deriving Repr, DecidableEq

/-- Body of the EVENT_TICK drain loop (voltage_face_loop lines 253-300)
for one consumed sample. `now` is the value movement_get_local_date_time
returns if the counted branch reads the clock. -/
def processSample (c : WashCtx) (now : DateTime) (r : Reading) : SampleResult :=
  let c1 := (read_hp_filtered c r).1
  let amp := (read_hp_filtered c r).2
  if amp < AMP_THRESHOLD then
    { ctx := { c1 with last_hp_filt := c1.hp_filt }, effects := [],
      counted := false, triggered := false }
  else if c1.last_hp_filt < 0 ∧ 0 ≤ c1.hp_filt then
    let now_tick := c1.tick_counter
    let dt_ticks := dt_ticks_of c1
    if MIN_CYCLE_TICKS ≤ dt_ticks ∧ dt_ticks ≤ MAX_CYCLE_TICKS then
      let c2 :=
        if c1.cycle_count = 0 then
          { c1 with first_cycle_time := now, cycle_count := 1,
                    window_hits := [now] }
        else
          { c1 with cycle_count := (c1.cycle_count + 1) % UINT8_MOD,
                    window_hits := c1.window_hits ++ [now] }
      let dt_s : Int := to_seconds now - to_seconds c2.first_cycle_time
      let c3 :=
        if WINDOW_SECONDS < dt_s then
          { c2 with first_cycle_time := now, cycle_count := 1,
                    window_hits := [now] }
        else c2
      if REQUIRED_CYCLES ≤ c3.cycle_count then
        let c4 := { c3 with daily_count := (c3.daily_count + 1) % UINT16_MOD }
        let c5 := { reset_cycles c4 with led_ticks := LED_ON_TICKS }
        { ctx := { c5 with last_cross_tick := now_tick,
                           last_hp_filt := c5.hp_filt },
          effects := beep_effects ++ led_on_effects,
          counted := true, triggered := true }
      else
        { ctx := { c3 with last_cross_tick := now_tick,
                           last_hp_filt := c3.hp_filt },
          effects := [], counted := true, triggered := false }
    else
      { ctx := { c1 with last_cross_tick := now_tick,
                         last_hp_filt := c1.hp_filt },
        effects := [], counted := false, triggered := false }
  else
    { ctx := { c1 with last_hp_filt := c1.hp_filt }, effects := [],
      counted := false, triggered := false }

/-- The bounded drain loop `for (int i = 0; i < 6; i++)`: each pending
sample comes with the wall-clock value current when it is processed; an
empty list models lis2dw_have_new_data() returning false. -/
def drain : Nat → WashCtx → List (DateTime × Reading) → WashCtx × List Effect
  | 0, c, _ => (c, [])
  | Nat.succ _, c, [] => (c, [])
  | Nat.succ n, c, (now, r) :: rest =>
    let s := processSample c now r
    let t := drain n s.ctx rest
    (t.1, s.effects ++ t.2)

/-- static void maybe_roll_day(wash_ctx_t *ctx). -/
def maybe_roll_day (c : WashCtx) (now : DateTime) : WashCtx :=
  if c.day = 0 ∧ c.month = 0 ∧ c.year = 0 then
    { c with day := now.day, month := now.month, year := now.year }
  else if now.day ≠ c.day ∨ now.month ≠ c.month ∨ now.year ≠ c.year then
    { c with daily_count := 0, day := now.day, month := now.month,
             year := now.year }
  else c

/-- EVENT_TICK handler (voltage_face_loop lines 232-304). `now` is the
wall-clock value read by maybe_roll_day at the start of the tick. -/
def tickStep (c : WashCtx) (now : DateTime)
    (samples : List (DateTime × Reading)) : WashCtx × List Effect :=
  let c1 := maybe_roll_day c now
  let c2 := { c1 with tick_counter := (c1.tick_counter + 1) % UINT16_MOD }
  let ledPair :=
    if c2.led_ticks ≠ 0 then
      let l := c2.led_ticks - 1
      (({ c2 with led_ticks := l } : WashCtx),
       if l = 0 then led_off_effects else ([] : List Effect))
    else (c2, ([] : List Effect))
  let c3 := ledPair.1
  let showPair :=
    if c3.show_count_ticks ≠ 0 then
      (({ c3 with show_count_ticks := c3.show_count_ticks - 1 } : WashCtx),
       [Effect.draw])
    else (c3, ([] : List Effect))
  let c4 := showPair.1
  let d := drain 6 c4 samples
  (d.1, ledPair.2 ++ showPair.2 ++ d.2 ++ [Effect.draw])

/-- EVENT_ACTIVATE branch of voltage_face_loop: reset detection state,
keep daily count, roll the day, turn the LED off, redraw. -/
def activateStep (c : WashCtx) (now : DateTime) : WashCtx × List Effect :=
  let c1 := { c with baseline := 0, hp_filt := 0, last_hp_filt := 0,
                     tick_counter := 0, last_cross_tick := 0,
                     led_ticks := 0, show_count_ticks := 0 }
  let c2 := reset_cycles c1
  let c3 := maybe_roll_day c2 now
  (c3, led_off_effects ++ [Effect.draw])

/-- EVENT_LIGHT_BUTTON_DOWN branch of voltage_face_loop. -/
def lightButtonStep (c : WashCtx) (now : DateTime) : WashCtx × List Effect :=
  let c1 := maybe_roll_day c now
  ({ c1 with show_count_ticks := SHOW_COUNT_TICKS }, [Effect.draw])

/-- Events dispatched to voltage_face_loop, with the wall-clock values
the handler would read from the host. -/
inductive MovementEvent where
  | activate (now : DateTime)
  | lightButtonDown (now : DateTime)
  | tick (now : DateTime) (samples : List (DateTime × Reading))
  | lowEnergyUpdate
  | defaultEvent
deriving Repr

/-- bool voltage_face_loop(movement_event_t event, void *context): the
switch over event types. EVENT_LOW_ENERGY_UPDATE only manages the sleep
animation and redraws; the default case defers to the host handler. -/
def voltage_face_loop (c : WashCtx) : MovementEvent → WashCtx × List Effect
  | MovementEvent.activate now => activateStep c now
  | MovementEvent.lightButtonDown now => lightButtonStep c now
  | MovementEvent.tick now samples => tickStep c now samples
  | MovementEvent.lowEnergyUpdate => (c, [Effect.draw])
  | MovementEvent.defaultEvent => (c, [])

/-- void voltage_face_resign(void *context): led_off() then disable tap
detection. It touches no buzzer state. -/
def voltage_face_resign_effects : List Effect :=
  led_off_effects ++ [Effect.disableTapDetection]

/-- Modelled from the spec: the watch.h hardware-abstraction layer is not
among the sources, so (following §6, which describes the notification
side effects as fire-and-forget enable/disable calls) LED and buzzer
enablement are flags set by the corresponding enable/disable calls and
otherwise persistent. -/
structure Hal where
  ledsEnabled : Bool
  ledLit : Bool
  buzzerEnabled : Bool
deriving Repr, DecidableEq

/-- Modelled from the spec: effect of one hardware call on the enablement
flags (watch.h missing from the sources). -/
def applyEffect (h : Hal) : Effect → Hal
  | Effect.enableBuzzer => { h with buzzerEnabled := true }
  | Effect.playNote => h
  | Effect.enableLeds => { h with ledsEnabled := true }
  | Effect.setLedGreen => { h with ledLit := true }
  | Effect.setLedOff => { h with ledLit := false }
  | Effect.disableLeds => { h with ledsEnabled := false }
  | Effect.disableTapDetection => h
  | Effect.draw => h

def applyEffects (h : Hal) (es : List Effect) : Hal :=
  es.foldl applyEffect h

def hal0 : Hal := ⟨false, false, false⟩

/-- Run k consecutive EVENT_TICK steps with no pending samples and a
fixed wall clock, accumulating effects. -/
def runTicks : Nat → WashCtx → DateTime → WashCtx × List Effect
  | 0, c, _ => (c, [])
  | Nat.succ n, c, now =>
    let s := tickStep c now []
    let t := runTicks n s.1 now
    (t.1, s.2 ++ t.2)

/-- Window invariant (spec §3): while the window is nonempty, every hit
recorded in it lies within WINDOW_SECONDS of first_cycle_time, elapsed
time being the to_seconds difference the code computes. -/
def WindowInv (c : WashCtx) : Prop :=
  0 < c.cycle_count →
    ∀ t ∈ c.window_hits,
      to_seconds t - to_seconds c.first_cycle_time ≤ WINDOW_SECONDS

instance (c : WashCtx) : Decidable (WindowInv c) := by
  unfold WindowInv; infer_instance

/- Concrete fixtures used to instantiate hypotheses of the theorems
below on explicit inputs. -/

/-- Noon on 2025-01-01 (year stored as 25, as the RTC does). -/
def sampleTime : DateTime := ⟨12, 0, 0, 1, 1, 25⟩

/-- Ten seconds after `sampleTime`. -/
def lateTime : DateTime := ⟨12, 0, 10, 1, 1, 25⟩

/-- Noon on the next calendar day. -/
def nextDayTime : DateTime := ⟨12, 0, 0, 2, 1, 25⟩

/-- A zero reading: with baseline 0 it leaves the baseline at 0, so a
positive pre-existing hp_filt decays to 3/4 of its value. -/
def stillReading : Reading := ⟨0, 0, 0⟩

/-- A context one in-band crossing away from triggering: hp_filt decays
from 2000 to 1500 ≥ AMP_THRESHOLD, last_hp_filt is negative, and the
tick distance 10 - 5 = 5 is inside the plausibility band. -/
def ctxAtFive : WashCtx :=
  { baseline := 0, hp_filt := 2000, last_hp_filt := -1, tick_counter := 10,
    last_cross_tick := 5, cycle_count := 5, first_cycle_time := sampleTime,
    led_ticks := 0, daily_count := 7, day := 1, month := 1, year := 25,
    show_count_ticks := 0,
    window_hits := [sampleTime, sampleTime, sampleTime, sampleTime, sampleTime] }

/-- Same detection state but with the daily count at the uint16 maximum. -/
def ctxMaxDaily : WashCtx := { ctxAtFive with daily_count := 65535 }

/-- Same detection state with two hits in the window. -/
def ctxTwoHits : WashCtx :=
  { ctxAtFive with cycle_count := 2, window_hits := [sampleTime, sampleTime] }

/-- Same detection state but the tick distance 100 - 1 = 99 is far above
MAX_CYCLE_TICKS. -/
def ctxOutOfBand : WashCtx :=
  { ctxAtFive with tick_counter := 100, last_cross_tick := 1 }

/-- Freshly reset cycling state: last_cross_tick = 0, empty window, with
an above-threshold negative-to-positive crossing pending. -/
def ctxFreshCross : WashCtx :=
  { ctxAtFive with last_cross_tick := 0, cycle_count := 0, window_hits := [] }

/-- Daily-counter scenario state: 5 triggers recorded on day 1. -/
def ctxDayD : WashCtx := { ctxAtFive with daily_count := 5 }

/- Projection helper lemmas: fields not touched by a function. -/

theorem read_hp_filtered_last_hp_filt (c : WashCtx) (r : Reading) :
    (read_hp_filtered c r).1.last_hp_filt = c.last_hp_filt := rfl

theorem read_hp_filtered_tick_counter (c : WashCtx) (r : Reading) :
    (read_hp_filtered c r).1.tick_counter = c.tick_counter := rfl

theorem read_hp_filtered_last_cross_tick (c : WashCtx) (r : Reading) :
    (read_hp_filtered c r).1.last_cross_tick = c.last_cross_tick := rfl

theorem read_hp_filtered_cycle_count (c : WashCtx) (r : Reading) :
    (read_hp_filtered c r).1.cycle_count = c.cycle_count := rfl

theorem read_hp_filtered_first_cycle_time (c : WashCtx) (r : Reading) :
    (read_hp_filtered c r).1.first_cycle_time = c.first_cycle_time := rfl

theorem read_hp_filtered_led_ticks (c : WashCtx) (r : Reading) :
    (read_hp_filtered c r).1.led_ticks = c.led_ticks := rfl

theorem read_hp_filtered_daily_count (c : WashCtx) (r : Reading) :
    (read_hp_filtered c r).1.daily_count = c.daily_count := rfl

theorem read_hp_filtered_window_hits (c : WashCtx) (r : Reading) :
    (read_hp_filtered c r).1.window_hits = c.window_hits := rfl

theorem maybe_roll_day_cycle_count (c : WashCtx) (now : DateTime) :
    (maybe_roll_day c now).cycle_count = c.cycle_count := by
  unfold maybe_roll_day; split_ifs <;> rfl

theorem maybe_roll_day_window_hits (c : WashCtx) (now : DateTime) :
    (maybe_roll_day c now).window_hits = c.window_hits := by
  unfold maybe_roll_day; split_ifs <;> rfl

theorem maybe_roll_day_first_cycle_time (c : WashCtx) (now : DateTime) :
    (maybe_roll_day c now).first_cycle_time = c.first_cycle_time := by
  unfold maybe_roll_day; split_ifs <;> rfl

theorem maybe_roll_day_led_ticks (c : WashCtx) (now : DateTime) :
    (maybe_roll_day c now).led_ticks = c.led_ticks := by
  unfold maybe_roll_day; split_ifs <;> rfl

theorem maybe_roll_day_show_count_ticks (c : WashCtx) (now : DateTime) :
    (maybe_roll_day c now).show_count_ticks = c.show_count_ticks := by
  unfold maybe_roll_day; split_ifs <;> rfl

theorem maybe_roll_day_last_cross_tick (c : WashCtx) (now : DateTime) :
    (maybe_roll_day c now).last_cross_tick = c.last_cross_tick := by
  unfold maybe_roll_day; split_ifs <;> rfl

/-- C1: a hit that makes the cycle count reach REQUIRED_CYCLES fires the
notification exactly once (the effect list of that sample step is exactly
one beep followed by one LED-on), arms the LED countdown to LED_ON_TICKS,
and resets the cycle count to 0 with an empty window, so an identical hit
sequence can trigger again. -/
theorem c1_trigger_fires_once_and_resets (c : WashCtx) (now : DateTime)
    (r : Reading) (h : (processSample c now r).triggered = true) :
    (processSample c now r).effects =
      [Effect.enableBuzzer, Effect.playNote, Effect.enableLeds,
       Effect.setLedGreen] ∧
    (processSample c now r).ctx.led_ticks = LED_ON_TICKS ∧
    (processSample c now r).ctx.cycle_count = 0 ∧
    (processSample c now r).ctx.window_hits = [] := by
  simp only [processSample] at h ⊢
  split_ifs at h ⊢ <;>
    simp_all [reset_cycles, beep_effects, led_on_effects]

/-- C1 witness: the trigger hypothesis holds at `ctxAtFive`. -/
theorem c1_trigger_fires_once_and_resets_witness :
    (processSample ctxAtFive sampleTime stillReading).triggered = true ∧
    ((processSample ctxAtFive sampleTime stillReading).effects =
      [Effect.enableBuzzer, Effect.playNote, Effect.enableLeds,
       Effect.setLedGreen] ∧
    (processSample ctxAtFive sampleTime stillReading).ctx.led_ticks =
      LED_ON_TICKS ∧
    (processSample ctxAtFive sampleTime stillReading).ctx.cycle_count = 0 ∧
    (processSample ctxAtFive sampleTime stillReading).ctx.window_hits = []) :=
  ⟨by decide,
   c1_trigger_fires_once_and_resets ctxAtFive sampleTime stillReading
     (by decide)⟩

/-- C2: when an accepted (counted) hit finds the elapsed time since the
window's first hit, in whole seconds from wall-clock fields, above
WINDOW_SECONDS, the window is restarted rather than extended or dropped:
the current hit becomes the new first hit and the count becomes exactly
1 (and such a restart never triggers). -/
theorem c2_stale_window_restarts (c : WashCtx) (now : DateTime) (r : Reading)
    (hc : 0 < c.cycle_count)
    (hcount : (processSample c now r).counted = true)
    (hstale : WINDOW_SECONDS <
      to_seconds now - to_seconds c.first_cycle_time) :
    (processSample c now r).ctx.cycle_count = 1 ∧
    (processSample c now r).ctx.first_cycle_time = now ∧
    (processSample c now r).ctx.window_hits = [now] ∧
    (processSample c now r).triggered = false := by
  simp only [processSample] at hcount ⊢
  split_ifs at hcount ⊢ <;>
    simp_all [read_hp_filtered_cycle_count, read_hp_filtered_first_cycle_time,
      REQUIRED_CYCLES]

/-- C2 witness: two hits at noon, then an in-band crossing 10 seconds
later restarts the window at the new hit. -/
theorem c2_stale_window_restarts_witness :
    0 < ctxTwoHits.cycle_count ∧
    (processSample ctxTwoHits lateTime stillReading).counted = true ∧
    WINDOW_SECONDS <
      to_seconds lateTime - to_seconds ctxTwoHits.first_cycle_time ∧
    ((processSample ctxTwoHits lateTime stillReading).ctx.cycle_count = 1 ∧
     (processSample ctxTwoHits lateTime stillReading).ctx.first_cycle_time =
       lateTime ∧
     (processSample ctxTwoHits lateTime stillReading).ctx.window_hits =
       [lateTime] ∧
     (processSample ctxTwoHits lateTime stillReading).triggered = false) :=
  ⟨by decide, by decide, by decide,
   c2_stale_window_restarts ctxTwoHits lateTime stillReading (by decide)
     (by decide) (by decide)⟩

/-- C5: a cycle is counted in a sample step exactly when the signed
filtered signal transitions from negative to non-negative, the absolute
amplitude is at or above AMP_THRESHOLD, and the tick distance recorded
against the previous above-gate crossing lies within
[MIN_CYCLE_TICKS, MAX_CYCLE_TICKS]; and a sample that is not counted
never changes the cycle count. -/
theorem c5_crossing_gates (c : WashCtx) (now : DateTime) (r : Reading) :
    ((processSample c now r).counted = true ↔
      (AMP_THRESHOLD ≤ (read_hp_filtered c r).2 ∧
       (read_hp_filtered c r).1.last_hp_filt < 0 ∧
       0 ≤ (read_hp_filtered c r).1.hp_filt ∧
       MIN_CYCLE_TICKS ≤ dt_ticks_of (read_hp_filtered c r).1 ∧
       dt_ticks_of (read_hp_filtered c r).1 ≤ MAX_CYCLE_TICKS)) ∧
    ((processSample c now r).counted = false →
      (processSample c now r).ctx.cycle_count = c.cycle_count) := by
  simp only [processSample]
  split_ifs <;>
    simp_all [read_hp_filtered_cycle_count, not_lt, reset_cycles]

/-- C5 witness: an above-threshold crossing at tick distance 99, outside
the plausibility band, is not counted and leaves the cycle count
unchanged. -/
theorem c5_crossing_gates_witness :
    (processSample ctxOutOfBand sampleTime stillReading).counted = false ∧
    (processSample ctxOutOfBand sampleTime stillReading).ctx.cycle_count =
      ctxOutOfBand.cycle_count :=
  ⟨by decide,
   (c5_crossing_gates ctxOutOfBand sampleTime stillReading).2 (by decide)⟩

theorem windowInv_fields {c cp : WashCtx}
    (h1 : cp.cycle_count = c.cycle_count)
    (h2 : cp.window_hits = c.window_hits)
    (h3 : cp.first_cycle_time = c.first_cycle_time) :
    WindowInv c → WindowInv cp := by
  unfold WindowInv; rw [h1, h2, h3]; exact id

theorem windowInv_processSample (c : WashCtx) (now : DateTime) (r : Reading)
    (h : WindowInv c) : WindowInv (processSample c now r).ctx := by
  unfold WindowInv at h ⊢
  simp only [processSample]
  split_ifs <;>
    simp_all [read_hp_filtered_cycle_count, read_hp_filtered_first_cycle_time,
      read_hp_filtered_window_hits, reset_cycles, WINDOW_SECONDS, not_lt]
  intro hpos t ht
  rcases ht with ht | rfl
  · exact h (by omega) t ht
  · assumption

theorem windowInv_drain (n : Nat) (c : WashCtx)
    (l : List (DateTime × Reading)) (h : WindowInv c) :
    WindowInv (drain n c l).1 := by
  induction n generalizing c l with
  | zero => simpa [drain] using h
  | succ n ih =>
    cases l with
    | nil => simpa [drain] using h
    | cons p rest =>
      cases p with
      | mk now r =>
        simp only [drain]
        exact ih (processSample c now r).ctx rest
          (windowInv_processSample c now r h)

/-- C3: every event-handler step preserves the window invariant — when
cycle_count > 0, every hit recorded in the current window lies within
WINDOW_SECONDS (in the code's wall-clock seconds) of first_cycle_time;
stale windows are restarted, never extended. -/
theorem c3_window_invariant_preserved (c : WashCtx) (e : MovementEvent)
    (h : WindowInv c) : WindowInv (voltage_face_loop c e).1 := by
  cases e with
  | activate now =>
    unfold WindowInv
    simp [voltage_face_loop, activateStep, maybe_roll_day_cycle_count,
      reset_cycles]
  | lightButtonDown now =>
    refine windowInv_fields ?_ ?_ ?_ h <;>
      simp [voltage_face_loop, lightButtonStep, maybe_roll_day_cycle_count,
        maybe_roll_day_window_hits, maybe_roll_day_first_cycle_time]
  | tick now samples =>
    simp only [voltage_face_loop, tickStep]
    split_ifs <;>
      exact windowInv_drain 6 _ samples
        (windowInv_fields
          (by simp [maybe_roll_day_cycle_count])
          (by simp [maybe_roll_day_window_hits])
          (by simp [maybe_roll_day_first_cycle_time]) h)
  | lowEnergyUpdate => exact h
  | defaultEvent => exact h

/-- C3 witness: the invariant holds at `ctxTwoHits` and is preserved when
a tick processes one pending sample. -/
theorem c3_window_invariant_preserved_witness :
    WindowInv ctxTwoHits ∧
    WindowInv (voltage_face_loop ctxTwoHits
      (MovementEvent.tick sampleTime [(sampleTime, stillReading)])).1 :=
  ⟨by decide,
   c3_window_invariant_preserved ctxTwoHits
     (MovementEvent.tick sampleTime [(sampleTime, stillReading)]) (by decide)⟩

/-- C4 counterexample: with the daily count at 65535 (the uint16_t
maximum), a trigger wraps it to 0 instead of saturating at 65535, so the
claim that all bounded counters saturate fails on the code. -/
theorem c4_counterexample_daily_count_wraps :
    (processSample ctxMaxDaily sampleTime stillReading).triggered = true ∧
    (processSample ctxMaxDaily sampleTime stillReading).ctx.daily_count = 0 ∧
    ¬ (processSample ctxMaxDaily sampleTime stillReading).ctx.daily_count
        = 65535 := by decide

/-- C4 amended: a trigger increments the daily count modulo 2^16 (so it
wraps at the maximum rather than saturating), and the hit count never
wraps because it stays below REQUIRED_CYCLES — a trigger resets it before
it can grow further. -/
theorem c4_amended_counters (c : WashCtx) (now : DateTime) (r : Reading)
    (h : c.cycle_count < REQUIRED_CYCLES) :
    (processSample c now r).ctx.daily_count =
      (if (processSample c now r).triggered = true then
        (c.daily_count + 1) % UINT16_MOD
       else c.daily_count) ∧
    (processSample c now r).ctx.cycle_count < REQUIRED_CYCLES := by
  simp only [processSample]
  split_ifs <;>
    simp_all [read_hp_filtered_cycle_count, read_hp_filtered_daily_count,
      reset_cycles, REQUIRED_CYCLES, UINT8_MOD]

/-- C4 witness: the triggering hit at `ctxAtFive` takes the daily count
from 7 to 8 = (7 + 1) % 2^16 and leaves the cycle count below
REQUIRED_CYCLES. -/
theorem c4_amended_counters_witness :
    ctxAtFive.cycle_count < REQUIRED_CYCLES ∧
    ((processSample ctxAtFive sampleTime stillReading).ctx.daily_count =
      (if (processSample ctxAtFive sampleTime stillReading).triggered = true
       then (ctxAtFive.daily_count + 1) % UINT16_MOD
       else ctxAtFive.daily_count) ∧
    (processSample ctxAtFive sampleTime stillReading).ctx.cycle_count <
      REQUIRED_CYCLES) :=
  ⟨by decide,
   c4_amended_counters ctxAtFive sampleTime stillReading (by decide)⟩

/-- C6: the rollover check compares the stored (day, month, year) triple
against the current date — any field mismatch zeroes the daily count and
adopts the new date; first-ever initialization (all stored fields zero)
adopts the date without zeroing; a matching date changes nothing; and
both the EVENT_TICK and the activation handler put the daily count
through exactly this check. -/
theorem c6_daily_rollover (c : WashCtx) (now : DateTime) :
    ((c.day = 0 ∧ c.month = 0 ∧ c.year = 0) →
      ((maybe_roll_day c now).daily_count = c.daily_count ∧
       (maybe_roll_day c now).day = now.day ∧
       (maybe_roll_day c now).month = now.month ∧
       (maybe_roll_day c now).year = now.year)) ∧
    (¬(c.day = 0 ∧ c.month = 0 ∧ c.year = 0) →
      (now.day ≠ c.day ∨ now.month ≠ c.month ∨ now.year ≠ c.year) →
      ((maybe_roll_day c now).daily_count = 0 ∧
       (maybe_roll_day c now).day = now.day ∧
       (maybe_roll_day c now).month = now.month ∧
       (maybe_roll_day c now).year = now.year)) ∧
    ((now.day = c.day ∧ now.month = c.month ∧ now.year = c.year) →
      ((maybe_roll_day c now).daily_count = c.daily_count ∧
       (maybe_roll_day c now).day = c.day ∧
       (maybe_roll_day c now).month = c.month ∧
       (maybe_roll_day c now).year = c.year)) ∧
    (voltage_face_loop c (MovementEvent.tick now [])).1.daily_count =
      (maybe_roll_day c now).daily_count ∧
    (voltage_face_loop c (MovementEvent.activate now)).1.daily_count =
      (maybe_roll_day c now).daily_count := by
  refine ⟨?_, ?_, ?_, ?_, ?_⟩
  · intro h0
    unfold maybe_roll_day; split_ifs <;> simp_all
  · intro h0 hm
    unfold maybe_roll_day; split_ifs <;> simp_all
  · intro hm
    unfold maybe_roll_day; split_ifs <;> simp_all
  · simp only [voltage_face_loop, tickStep, drain]
    unfold maybe_roll_day
    split_ifs <;> simp_all
  · simp only [voltage_face_loop, activateStep]
    unfold maybe_roll_day reset_cycles
    split_ifs <;> simp_all

/-- C6 witness: with count = 5 on day 1, running the check on day 2
yields count 0, and a subsequent trigger yields count 1. -/
theorem c6_daily_rollover_witness :
    ¬(ctxDayD.day = 0 ∧ ctxDayD.month = 0 ∧ ctxDayD.year = 0) ∧
    (nextDayTime.day ≠ ctxDayD.day ∨ nextDayTime.month ≠ ctxDayD.month ∨
     nextDayTime.year ≠ ctxDayD.year) ∧
    (maybe_roll_day ctxDayD nextDayTime).daily_count = 0 ∧
    (processSample (maybe_roll_day ctxDayD nextDayTime) nextDayTime
      stillReading).triggered = true ∧
    (processSample (maybe_roll_day ctxDayD nextDayTime) nextDayTime
      stillReading).ctx.daily_count = 1 :=
  ⟨by decide, by decide,
   ((c6_daily_rollover ctxDayD nextDayTime).2.1 (by decide) (by decide)).1,
   by decide, by decide⟩

theorem tickStep_led_ticks (c : WashCtx) (now : DateTime) :
    (tickStep c now []).1.led_ticks = c.led_ticks - 1 := by
  simp only [tickStep, drain]
  split_ifs <;>
    simp_all [maybe_roll_day_led_ticks, maybe_roll_day_show_count_ticks]

theorem tickStep_ledOff_count (c : WashCtx) (now : DateTime) :
    ((tickStep c now []).2.count Effect.setLedOff) =
      if c.led_ticks = 1 then 1 else 0 := by
  simp only [tickStep, drain]
  split_ifs <;>
    simp_all [maybe_roll_day_led_ticks, maybe_roll_day_show_count_ticks,
      led_off_effects, List.count_append, List.count_cons, List.count_nil] <;>
    omega

theorem runTicks_led_ticks (k : Nat) (c : WashCtx) (now : DateTime) :
    (runTicks k c now).1.led_ticks = c.led_ticks - k := by
  induction k generalizing c with
  | zero => simp [runTicks]
  | succ k ih =>
    simp only [runTicks]
    rw [ih, tickStep_led_ticks]
    omega

theorem runTicks_ledOff_count (k : Nat) (c : WashCtx) (now : DateTime) :
    ((runTicks k c now).2.count Effect.setLedOff) =
      if 1 ≤ c.led_ticks ∧ c.led_ticks ≤ k then 1 else 0 := by
  induction k generalizing c with
  | zero =>
    simp only [runTicks, List.count_nil]
    split_ifs <;> omega
  | succ k ih =>
    simp only [runTicks, List.count_append]
    rw [ih, tickStep_ledOff_count, tickStep_led_ticks]
    split_ifs <;> omega

/-- C7: on each tick the LED-hold countdown decreases by exactly 1 while
nonzero and is a no-op at zero (so it never underflows); the LED-release
call is emitted by a tick exactly when the countdown transitions to
zero; and a countdown armed at LED_ON_TICKS reaches exactly zero after
LED_ON_TICKS sample-free ticks, with the LED released exactly once over
those ticks. -/
theorem c7_led_countdown (c : WashCtx) (now : DateTime) :
    (c.led_ticks = 0 → (tickStep c now []).1.led_ticks = 0) ∧
    (0 < c.led_ticks →
      (tickStep c now []).1.led_ticks = c.led_ticks - 1) ∧
    (Effect.setLedOff ∈ (tickStep c now []).2 ↔ c.led_ticks = 1) ∧
    (c.led_ticks = LED_ON_TICKS →
      (runTicks LED_ON_TICKS c now).1.led_ticks = 0 ∧
      ((runTicks LED_ON_TICKS c now).2.count Effect.setLedOff) = 1) := by
  refine ⟨?_, ?_, ?_, ?_⟩
  · intro h; rw [tickStep_led_ticks, h]
  · intro h; exact tickStep_led_ticks c now
  · rw [← List.count_pos_iff, tickStep_ledOff_count]
    split_ifs <;> omega
  · intro h
    refine ⟨?_, ?_⟩
    · rw [runTicks_led_ticks, h]; omega
    · rw [runTicks_ledOff_count, h]
      simp [LED_ON_TICKS]

/-- C7 witness: from a countdown armed at LED_ON_TICKS = 8 with no
pending samples, tick 1 decrements the countdown to 7, and 8 ticks reach
zero with exactly one LED release. -/
theorem c7_led_countdown_witness :
    0 < LED_ON_TICKS ∧
    (tickStep { ctxAtFive with led_ticks := LED_ON_TICKS } sampleTime
       []).1.led_ticks = LED_ON_TICKS - 1 ∧
    ((runTicks LED_ON_TICKS { ctxAtFive with led_ticks := LED_ON_TICKS }
        sampleTime).1.led_ticks = 0 ∧
     ((runTicks LED_ON_TICKS { ctxAtFive with led_ticks := LED_ON_TICKS }
        sampleTime).2.count Effect.setLedOff) = 1) :=
  ⟨by decide,
   (c7_led_countdown { ctxAtFive with led_ticks := LED_ON_TICKS }
      sampleTime).2.1 (by decide),
   (c7_led_countdown { ctxAtFive with led_ticks := LED_ON_TICKS }
      sampleTime).2.2.2 (by decide)⟩

/-- C8 counterexample: starting from all hardware off, a beep enables
the buzzer, and resign leaves it enabled — resign never calls a
buzzer-disable, so "both the LED and buzzer enablement are off after
resign" fails on the code. -/
theorem c8_counterexample_buzzer_left_enabled :
    (applyEffects (applyEffects hal0 beep_effects)
      voltage_face_resign_effects).buzzerEnabled = true := by decide

/-- C8 amended: resign itself turns the LED off (set-off then disable)
without relying on a future tick, but it does not change buzzer
enablement, so a buzzer enabled by an earlier beep stays enabled. -/
theorem c8_amended_resign_leds_off (h : Hal) :
    (applyEffects h voltage_face_resign_effects).ledLit = false ∧
    (applyEffects h voltage_face_resign_effects).ledsEnabled = false ∧
    (applyEffects h voltage_face_resign_effects).buzzerEnabled =
      h.buzzerEnabled := by
  simp [applyEffects, voltage_face_resign_effects, led_off_effects,
    applyEffect]

/-- C9: any detected negative-to-non-negative crossing that passes the
noise gate updates last_cross_tick to the current tick counter, whether
or not its tick distance is inside the plausibility band. -/
theorem c9_out_of_band_updates_last_cross (c : WashCtx) (now : DateTime)
    (r : Reading)
    (hcross : (read_hp_filtered c r).1.last_hp_filt < 0 ∧
      0 ≤ (read_hp_filtered c r).1.hp_filt)
    (hamp : AMP_THRESHOLD ≤ (read_hp_filtered c r).2) :
    (processSample c now r).ctx.last_cross_tick = c.tick_counter := by
  simp only [processSample]
  split_ifs <;>
    simp_all [read_hp_filtered_tick_counter, reset_cycles, not_lt] <;>
    omega

/-- C9 witness: the above-gate crossing at tick distance 99 — outside the
band — still moves last_cross_tick to the current tick counter 100. -/
theorem c9_out_of_band_updates_last_cross_witness :
    ((read_hp_filtered ctxOutOfBand stillReading).1.last_hp_filt < 0 ∧
      0 ≤ (read_hp_filtered ctxOutOfBand stillReading).1.hp_filt) ∧
    AMP_THRESHOLD ≤ (read_hp_filtered ctxOutOfBand stillReading).2 ∧
    (processSample ctxOutOfBand sampleTime stillReading).ctx.last_cross_tick
      = ctxOutOfBand.tick_counter :=
  ⟨by decide, by decide,
   c9_out_of_band_updates_last_cross ctxOutOfBand sampleTime stillReading
     (by decide) (by decide)⟩

/-- C10: from a reset cycling state (last_cross_tick = 0, as reset_cycles
and activation leave it), the first above-threshold crossing computes a
tick distance of 0, below MIN_CYCLE_TICKS, so it is never counted and
leaves the cycle count unchanged; it only records last_cross_tick, so at
least two qualifying crossings are needed before a cycle is counted. -/
theorem c10_first_crossing_never_counts (c : WashCtx) (now : DateTime)
    (r : Reading) (h0 : c.last_cross_tick = 0) :
    dt_ticks_of (read_hp_filtered c r).1 = 0 ∧
    dt_ticks_of (read_hp_filtered c r).1 < MIN_CYCLE_TICKS ∧
    (processSample c now r).counted = false ∧
    (processSample c now r).ctx.cycle_count = c.cycle_count ∧
    (reset_cycles c).last_cross_tick = 0 ∧
    (activateStep c now).1.last_cross_tick = 0 ∧
    ((read_hp_filtered c r).1.last_hp_filt < 0 ∧
      0 ≤ (read_hp_filtered c r).1.hp_filt →
     AMP_THRESHOLD ≤ (read_hp_filtered c r).2 →
     (processSample c now r).ctx.last_cross_tick = c.tick_counter) := by
  have hdt : dt_ticks_of (read_hp_filtered c r).1 = 0 := by
    simp [dt_ticks_of, read_hp_filtered_last_cross_tick, h0]
  refine ⟨hdt, by rw [hdt]; decide, ?_, ?_, rfl, ?_, ?_⟩
  · simp only [processSample]
    split_ifs <;> simp_all [MIN_CYCLE_TICKS]
  · simp only [processSample]
    split_ifs <;> simp_all [read_hp_filtered_cycle_count, MIN_CYCLE_TICKS]
  · simp [activateStep, reset_cycles, maybe_roll_day_last_cross_tick]
  · intro hcross hamp
    simp only [processSample]
    split_ifs <;>
      simp_all [read_hp_filtered_tick_counter, reset_cycles, not_lt] <;>
      omega

/-- C10 witness: after a reset, an above-threshold crossing at tick 10 is
not counted but records last_cross_tick = 10. -/
theorem c10_first_crossing_never_counts_witness :
    ctxFreshCross.last_cross_tick = 0 ∧
    ((processSample ctxFreshCross sampleTime stillReading).counted = false ∧
     (processSample ctxFreshCross sampleTime stillReading).ctx.cycle_count =
       ctxFreshCross.cycle_count ∧
     (processSample ctxFreshCross sampleTime stillReading).ctx.last_cross_tick
       = ctxFreshCross.tick_counter) :=
  ⟨by decide,
   (c10_first_crossing_never_counts ctxFreshCross sampleTime stillReading
      (by decide)).2.2.1,
   (c10_first_crossing_never_counts ctxFreshCross sampleTime stillReading
      (by decide)).2.2.2.1,
   (c10_first_crossing_never_counts ctxFreshCross sampleTime stillReading
      (by decide)).2.2.2.2.2.2 (by decide) (by decide)⟩

end VoltageFace
